import Mathlib

/-!
Verification of the agent context-assembly and conversational-state engine
(`src/server/lib/agent.ts`) of the dashboard_Agents repository.

The TypeScript `Agent` class is shallowly embedded: its mutable fields become
an `AgentState` record, each method becomes a pure state-transition function,
the external LLM service (`this.llmService`) becomes an explicit `ModelGateway`
value whose operations return `Except`, and each `new Date()` call is modelled
by an explicit clock value threaded through the transition.
-/

namespace DashboardAgents

/-- A conversation message (interface `Message` in agent.ts).
`timestamp : Nat` models the JS `Date` produced by `new Date()`. -/
structure Message where
  role : String
  content : String
  timestamp : Nat
  deriving Repr, DecidableEq

/-- Interface `ConversationHistory` in agent.ts. -/
structure ConversationHistory where
  messages : List Message
  deriving Repr, DecidableEq

/-- Interface `ExperienceSummary` in agent.ts (the running summary).
`lastUpdated` is optional in the source and absent in the fresh default. -/
structure ExperienceSummary where
  interactions : Nat
  lastSummary : String
  lastUpdated : Option Nat := none
  deriving Repr, DecidableEq

/-- `Persona` from shared/schema.ts: traits, backstory, instructions. -/
structure Persona where
  traits : List String
  backstory : String
  instructions : String
  deriving Repr, DecidableEq

/-- `ExperienceSettings` from shared/schema.ts. `memoryType` is kept as a
string because agent.ts receives it from an untyped jsonb cast and its
switch statement has a default branch for unrecognized values. -/
structure ExperienceSettings where
  memoryType : String
  retentionPeriod : String
  summarizationEnabled : Bool
  deriving Repr, DecidableEq

/-- `AIEngine` from shared/schema.ts (only the fields the core reads). -/
structure AIEngine where
  provider : String
  model : String
  deriving Repr, DecidableEq

/-- The response object returned by `llmService.generateResponse`; agent.ts
only reads its `content` field. -/
structure LLMResponse where
  content : String
  deriving Repr, DecidableEq

/-- The external LLM collaborator (`LLMInterface` in lib/openai, the spec's
ModelGateway): an opaque `complete` (`generateResponse`) and `summarize`
(`summarizeText`), both fallible, modelled as `Except`-returning functions. -/
structure ModelGateway where
  generateResponse : String → List String → AIEngine → Except String LLMResponse
  summarizeText : String → AIEngine → Except String String

/-- The stored active-agent record (`ActiveAgent` row, shared/schema.ts):
`experienceSummary` and `conversationHistory` are nullable jsonb columns,
so they are `Option`s here; `templateId` is a nullable reference. -/
structure ActiveAgent where
  id : Nat
  templateId : Option Nat
  name : String
  status : String
  experienceSummary : Option ExperienceSummary
  conversationHistory : Option ConversationHistory
  deriving Repr, DecidableEq

/-- The template an agent is instantiated from (`AgentTemplate` row; only the
fields the `Agent` constructor reads). -/
structure AgentTemplate where
  name : String
  persona : Persona
  aiEngine : AIEngine
  experienceSettings : ExperienceSettings
  deriving Repr, DecidableEq

/-- The mutable fields of class `Agent` in agent.ts. -/
structure AgentState where
  id : Nat
  name : String
  templateId : Option Nat
  status : String
  persona : Persona
  aiEngine : AIEngine
  experienceSettings : ExperienceSettings
  experienceSummary : ExperienceSummary
  conversationHistory : ConversationHistory
  deriving Repr, DecidableEq

/-- The fresh-session default for the running summary, as written in the
`Agent` constructor (agent.ts lines 57-60 and 67-70). -/
def defaultSummary : ExperienceSummary :=
  { interactions := 0, lastSummary := "No previous interactions." }

/-- The `Agent` constructor (agent.ts lines 41-95). With a stored record the
identity and state fields come from the record, with `||`-fallbacks for the
nullable jsonb fields; without one the fresh defaults are used. Persona,
engine and settings always come from the template. -/
def mkAgent (template : AgentTemplate) (activeAgent : Option ActiveAgent) : AgentState :=
  match activeAgent with
  | some a =>
      { id := a.id
        templateId := a.templateId
        name := a.name
        status := a.status
        persona := template.persona
        aiEngine := template.aiEngine
        experienceSettings := template.experienceSettings
        experienceSummary := a.experienceSummary.getD defaultSummary
        conversationHistory := a.conversationHistory.getD { messages := [] } }
  | none =>
      { id := 0
        templateId := none
        name := template.name
        status := "idle"
        persona := template.persona
        aiEngine := template.aiEngine
        experienceSettings := template.experienceSettings
        experienceSummary := defaultSummary
        conversationHistory := { messages := [] } }

/-- `Agent.addMessageToHistory` (agent.ts lines 178-186): push a message with
the current time onto the log and increment the interaction counter. -/
def addMessageToHistory (a : AgentState) (role content : String) (now : Nat) : AgentState :=
  { a with
    conversationHistory :=
      { messages := a.conversationHistory.messages ++
          [{ role := role, content := content, timestamp := now }] }
    experienceSummary :=
      { a.experienceSummary with interactions := a.experienceSummary.interactions + 1 } }

/-- JS `array.slice(-n)` for `n > 0`: the last `min(length, n)` elements. -/
def lastN (l : List α) (n : Nat) : List α :=
  l.drop (l.length - n)

/-- `Agent.getRelevantConversationHistory` (agent.ts lines 214-232): switch on
the memory type; last 10 / 5 / 15 messages, empty list on the default branch. -/
def getRelevantConversationHistory (a : AgentState) : List Message :=
  if a.experienceSettings.memoryType = "conversation" then
    lastN a.conversationHistory.messages 10
  else if a.experienceSettings.memoryType = "summarized" then
    lastN a.conversationHistory.messages 5
  else if a.experienceSettings.memoryType = "long_term" then
    lastN a.conversationHistory.messages 15
  else []

/-- How a message is rendered into a context entry: `` `${msg.role}: ${msg.content}` ``. -/
def renderMessage (m : Message) : String :=
  m.role ++ ": " ++ m.content

/-- The system-prompt template literal of `Agent.prepareContext` (agent.ts
lines 193-200), with its exact text and whitespace. The concatenation is
grouped to the right so that each interpolated piece sits between a fixed
opening string and the rest of the prompt. -/
def systemPromptFor (p : Persona) (es : ExperienceSummary) : String :=
  "\n      You are an AI assistant with the following traits: " ++
    (String.intercalate ", " p.traits ++
      (".\n      Background: " ++
        (p.backstory ++
          ("\n      Instructions: " ++
            (p.instructions ++
              ("\n      \n      Current interaction count: " ++
                (toString es.interactions ++
                  ("\n      Previous summary: " ++
                    (es.lastSummary ++ "\n    ")))))))))

/-- `Agent.prepareContext` (agent.ts lines 189-211): the system prompt first,
then one rendered entry per message of the relevant window. -/
def prepareContext (a : AgentState) : List String :=
  systemPromptFor a.persona a.experienceSummary ::
    (getRelevantConversationHistory a).map renderMessage

/-- The guard of `Agent.updateExperienceSummary` (agent.ts lines 237-238):
`summarizationEnabled && interactions % 10 === 0`. -/
def summarizationDue (settings : ExperienceSettings) (interactions : Nat) : Bool :=
  settings.summarizationEnabled && interactions % 10 == 0

/-- The text blob summarized by `Agent.updateExperienceSummary` (agent.ts
lines 241-244): the last 10 messages rendered and joined with newlines. -/
def textToSummarize (a : AgentState) : String :=
  String.intercalate "\n" ((lastN a.conversationHistory.messages 10).map renderMessage)

/-- `Agent.updateExperienceSummary` (agent.ts lines 235-257): when due, call
`summarizeText`; on success store the summary and the current time, on
failure swallow the error (the catch block only logs), leaving state as is. -/
def updateExperienceSummary (a : AgentState) (g : ModelGateway) (now : Nat) : AgentState :=
  if summarizationDue a.experienceSettings a.experienceSummary.interactions then
    match g.summarizeText (textToSummarize a) a.aiEngine with
    | Except.ok summary =>
        { a with experienceSummary :=
            { a.experienceSummary with lastSummary := summary, lastUpdated := some now } }
    | Except.error _ => a
  else a

/-- `Agent.processMessage` (agent.ts lines 146-175). Returns the result
(`Except` models return vs throw) together with the post-call state. The
three `new Date()` calls of a turn are modelled by `now`, `now + 1`,
`now + 2`. Only `generateResponse` can throw inside the try block, so the
catch branch (status `error`, re-raise) fires exactly on its failure. -/
def processMessage (a : AgentState) (g : ModelGateway) (message : String) (now : Nat) :
    Except String String × AgentState :=
  let a1 := { a with status := "active" }
  let a2 := addMessageToHistory a1 "user" message now
  let context := prepareContext a2
  match g.generateResponse message context a2.aiEngine with
  | Except.error e => (Except.error e, { a2 with status := "error" })
  | Except.ok response =>
      let a3 := addMessageToHistory a2 "assistant" response.content (now + 1)
      let a4 := updateExperienceSummary a3 g (now + 2)
      (Except.ok response.content, { a4 with status := "idle" })

/-- `Agent.toJSON` (agent.ts lines 275-285): the persisted snapshot record.
The summary and history fields are always present in the snapshot. -/
def toJSON (a : AgentState) : ActiveAgent :=
  { id := a.id
    templateId := a.templateId
    name := a.name
    status := a.status
    experienceSummary := some a.experienceSummary
    conversationHistory := some a.conversationHistory }

/-- The spec's window bounds, keyed by memory type (spec section 8, property 1):
bound(conversation)=10, bound(summarized)=5, bound(long_term)=15, otherwise 0. -/
def memoryBound (memoryType : String) : Nat :=
  if memoryType = "conversation" then 10
  else if memoryType = "summarized" then 5
  else if memoryType = "long_term" then 15
  else 0

/-- The spec's summarization-due predicate, stated in the spec's words
(section 4.3): enabled AND the count is a positive multiple of 10. Kept
separate from `summarizationDue` (translated from the code) so the two can
be compared. -/
def isDueSpec (settings : ExperienceSettings) (interactionCount : Nat) : Bool :=
  settings.summarizationEnabled &&
    decide (0 < interactionCount) && interactionCount % 10 == 0

/-- String containment, as list containment of the underlying character data. -/
def containsStr (s pat : String) : Prop :=
  pat.data <:+: s.data

instance (s pat : String) : Decidable (containsStr s pat) := by
  unfold containsStr
  exact inferInstance

/-- One turn of `processMessage`, instrumented to count how many calls to
`ModelGateway.summarizeText` the turn performs: zero when completion fails or
summarization is not due, one when `updateExperienceSummary` reaches its
`summarizeText` call. The state computation mirrors `processMessage`. -/
def summarizeCallsInTurn (a : AgentState) (g : ModelGateway) (message : String) (now : Nat) :
    Nat :=
  let a1 := { a with status := "active" }
  let a2 := addMessageToHistory a1 "user" message now
  match g.generateResponse message (prepareContext a2) a2.aiEngine with
  | Except.error _ => 0
  | Except.ok response =>
      let a3 := addMessageToHistory a2 "assistant" response.content (now + 1)
      if summarizationDue a3.experienceSettings a3.experienceSummary.interactions then 1
      else 0

/-- Run `processMessage` once per message of a list against a fixed gateway,
accumulating the total number of `summarizeText` calls performed. -/
def runTurns (g : ModelGateway) : AgentState → List String → Nat → AgentState × Nat
  | a, [], _ => (a, 0)
  | a, m :: ms, t =>
      let c := summarizeCallsInTurn a g m t
      let r := runTurns g (processMessage a g m t).2 ms (t + 3)
      (r.1, c + r.2)

/-- Run a sequence of `processMessage` calls, each with its own gateway
behaviour (so individual calls may succeed or fail), keeping the final state. -/
def runSequence (a : AgentState) : List (ModelGateway × String × Nat) → AgentState
  | [] => a
  | c :: rest => runSequence (processMessage a c.1 c.2.1 c.2.2).2 rest

/-- A concrete template: conversation memory, summarization enabled. -/
def template0 : AgentTemplate :=
  { name := "agent-one"
    persona :=
      { traits := ["helpful", "curious"]
        backstory := "born in a lab"
        instructions := "assist the user" }
    aiEngine := { provider := "openai", model := "gpt-4o" }
    experienceSettings :=
      { memoryType := "conversation"
        retentionPeriod := "indefinite"
        summarizationEnabled := true } }

/-- A stub gateway whose completion always succeeds (echoing the message) and
whose summarization always succeeds. -/
def stubGateway : ModelGateway :=
  { generateResponse := fun m _ _ => Except.ok { content := "ack-" ++ m }
    summarizeText := fun _ _ => Except.ok "stub summary" }

/-- A gateway whose completion always fails. -/
def failGateway : ModelGateway :=
  { generateResponse := fun _ _ _ => Except.error "provider down"
    summarizeText := fun _ _ => Except.ok "stub summary" }

/-- A gateway whose completion succeeds with a fixed reply and whose
summarization always fails. -/
def sumFailGateway : ModelGateway :=
  { generateResponse := fun _ _ _ => Except.ok { content := "ack" }
    summarizeText := fun _ _ => Except.error "rate limited" }

/-- `n` distinct user messages. -/
def msgs (n : Nat) : List String :=
  (List.range n).map (fun i => "m" ++ toString i)

/-- A stored record with 8 prior interactions, so that the next turn reaches
interaction count 10 and triggers the summarization check. -/
def record8 : ActiveAgent :=
  { id := 1
    templateId := some 1
    name := "agent-one"
    status := "idle"
    experienceSummary := some { interactions := 8, lastSummary := "No previous interactions." }
    conversationHistory := some { messages := [] } }

/-- A stored record whose running-summary text is the empty string. -/
def recordEmptySummary : ActiveAgent :=
  { id := 2
    templateId := none
    name := "agent-one"
    status := "idle"
    experienceSummary := some { interactions := 4, lastSummary := "" }
    conversationHistory := some { messages := [] } }

/-- A stored record in which both nullable jsonb state fields are absent. -/
def recordBare : ActiveAgent :=
  { id := 3
    templateId := some 1
    name := "agent-one"
    status := "idle"
    experienceSummary := none
    conversationHistory := none }

theorem containsStr_self (s : String) : containsStr s s :=
  ⟨[], [], by simp⟩

theorem containsStr_left {s pat : String} (t : String) (h : containsStr s pat) :
    containsStr (s ++ t) pat := by
  obtain ⟨u, v, huv⟩ := h
  exact ⟨u, v ++ t.data, by rw [String.data_append, ← huv]; simp⟩

theorem containsStr_right {t pat : String} (s : String) (h : containsStr t pat) :
    containsStr (s ++ t) pat := by
  obtain ⟨u, v, huv⟩ := h
  exact ⟨s.data ++ u, v, by rw [String.data_append, ← huv]; simp⟩

theorem lastN_length (l : List α) (n : Nat) : (lastN l n).length = min l.length n := by
  simp only [lastN, List.length_drop]
  omega

theorem lastN_suffix (l : List α) (n : Nat) : lastN l n <:+ l :=
  List.drop_suffix _ _

/-- C2 counterexample: with summarization enabled, the code's due-predicate
(the guard of `Agent.updateExperienceSummary`) returns `true` at interaction
count 0, whereas the claim (requiring `interactionCount > 0`) says it must be
`false` there; the spec-worded predicate indeed returns `false` at 0. -/
theorem c2_counterexample :
    summarizationDue template0.experienceSettings 0 = true ∧
    isDueSpec template0.experienceSettings 0 = false := by
  constructor <;> rfl

/-- C2 (amended): the summarization-due decision, as a pure predicate over
(config, interactionCount), returns true iff `summarizationEnabled` is true
and `interactionCount mod 10 = 0` — with no positivity requirement, so it is
also true at count 0 when enabled; it agrees with the spec's predicate at
every positive count, is false for counts 1..9 and 11, and true for 10, 20,
30 when summarization is enabled. -/
theorem c2_amended (s : ExperienceSettings) (n : Nat) :
    (summarizationDue s n = true ↔ (s.summarizationEnabled = true ∧ n % 10 = 0)) ∧
    (0 < n → summarizationDue s n = isDueSpec s n) ∧
    (0 < n → n < 10 → summarizationDue s n = false) ∧
    (summarizationDue s 11 = false ∧
      summarizationDue s 10 = s.summarizationEnabled ∧
      summarizationDue s 20 = s.summarizationEnabled ∧
      summarizationDue s 30 = s.summarizationEnabled) := by
  refine ⟨?_, ?_, ?_, ?_, ?_, ?_, ?_⟩
  · simp [summarizationDue, Bool.and_eq_true, Nat.beq_eq]
  · intro hn
    simp [summarizationDue, isDueSpec, hn]
  · intro h1 h2
    simp [summarizationDue]
    omega
  · cases h : s.summarizationEnabled <;> simp [summarizationDue, h]
  · cases h : s.summarizationEnabled <;> simp [summarizationDue, h]
  · cases h : s.summarizationEnabled <;> simp [summarizationDue, h]
  · cases h : s.summarizationEnabled <;> simp [summarizationDue, h]

/-- C2 amended, witness: at the concrete enabled settings and count 10 the
amended equivalence holds and the code agrees with the spec predicate. -/
theorem c2_amended_witness :
    (summarizationDue template0.experienceSettings 10 = true ↔
      (template0.experienceSettings.summarizationEnabled = true ∧ 10 % 10 = 0)) ∧
    summarizationDue template0.experienceSettings 10 =
      isDueSpec template0.experienceSettings 10 :=
  ⟨(c2_amended template0.experienceSettings 10).1,
   (c2_amended template0.experienceSettings 10).2.1 (by decide)⟩

/-- C4: for every conversation log and memory configuration, the selected
window has length `min L (bound memoryType)` with bound conversation = 10,
summarized = 5, long_term = 15, anything else = 0, and the window is a
contiguous suffix of the log in original order (no error in any case). -/
theorem c4_window_bound (a : AgentState) :
    (getRelevantConversationHistory a).length =
      min a.conversationHistory.messages.length
        (memoryBound a.experienceSettings.memoryType) ∧
    getRelevantConversationHistory a <:+ a.conversationHistory.messages := by
  unfold getRelevantConversationHistory memoryBound
  split_ifs <;>
    simp [lastN_length, lastN_suffix, List.nil_suffix]

/-- C8: serializing any session state with `toJSON` and constructing a new
session from the serialized record yields identical conversation log, running
summary (text, interaction count, lastUpdated) and status. -/
theorem c8_snapshot_roundtrip (a : AgentState) (template : AgentTemplate) :
    (mkAgent template (some (toJSON a))).conversationHistory = a.conversationHistory ∧
    (mkAgent template (some (toJSON a))).experienceSummary = a.experienceSummary ∧
    (mkAgent template (some (toJSON a))).status = a.status :=
  ⟨rfl, rfl, rfl⟩

/-- C10: constructing a session from a stored record whose nullable
`experienceSummary` or `conversationHistory` field is absent never fails and
falls back to the fresh defaults: interaction count 0, summary text
"No previous interactions.", empty message list. -/
theorem c10_rehydration_defaults (template : AgentTemplate) (r : ActiveAgent) :
    (r.experienceSummary = none →
      (mkAgent template (some r)).experienceSummary =
        { interactions := 0
          lastSummary := "No previous interactions."
          lastUpdated := none }) ∧
    (r.conversationHistory = none →
      (mkAgent template (some r)).conversationHistory = { messages := [] }) := by
  constructor <;> intro h <;> simp [mkAgent, h, defaultSummary]

/-- C10 witness: at the concrete bare record (both state fields absent) the
rehydrated session carries the fresh defaults. -/
theorem c10_witness :
    (mkAgent template0 (some recordBare)).experienceSummary =
      { interactions := 0
        lastSummary := "No previous interactions."
        lastUpdated := none } ∧
    (mkAgent template0 (some recordBare)).conversationHistory = { messages := [] } :=
  ⟨(c10_rehydration_defaults template0 recordBare).1 rfl,
   (c10_rehydration_defaults template0 recordBare).2 rfl⟩

theorem processMessage_error_case (a : AgentState) (g : ModelGateway) (msg : String)
    (t : Nat) (e : String)
    (he : g.generateResponse msg
        (prepareContext (addMessageToHistory { a with status := "active" } "user" msg t))
        (addMessageToHistory { a with status := "active" } "user" msg t).aiEngine =
      Except.error e) :
    processMessage a g msg t =
      (Except.error e,
        { addMessageToHistory { a with status := "active" } "user" msg t with
            status := "error" }) := by
  simp only [processMessage]
  rw [he]

theorem processMessage_ok_case (a : AgentState) (g : ModelGateway) (msg : String)
    (t : Nat) (r : LLMResponse)
    (hr : g.generateResponse msg
        (prepareContext (addMessageToHistory { a with status := "active" } "user" msg t))
        (addMessageToHistory { a with status := "active" } "user" msg t).aiEngine =
      Except.ok r) :
    processMessage a g msg t =
      (Except.ok r.content,
        { updateExperienceSummary
            (addMessageToHistory
              (addMessageToHistory { a with status := "active" } "user" msg t)
              "assistant" r.content (t + 1)) g (t + 2) with
          status := "idle" }) := by
  simp only [processMessage]
  rw [hr]

theorem updateExperienceSummary_interactions (a : AgentState) (g : ModelGateway)
    (now : Nat) :
    (updateExperienceSummary a g now).experienceSummary.interactions =
      a.experienceSummary.interactions := by
  unfold updateExperienceSummary
  split
  · split <;> rfl
  · rfl

theorem updateExperienceSummary_history (a : AgentState) (g : ModelGateway) (now : Nat) :
    (updateExperienceSummary a g now).conversationHistory = a.conversationHistory := by
  unfold updateExperienceSummary
  split
  · split <;> rfl
  · rfl

theorem updateExperienceSummary_of_fail (a : AgentState) (g : ModelGateway) (now : Nat)
    (h : ∀ s eng, ∃ e, g.summarizeText s eng = Except.error e) :
    updateExperienceSummary a g now = a := by
  obtain ⟨e, he⟩ := h (textToSummarize a) a.aiEngine
  unfold updateExperienceSummary
  rw [he]
  split <;> rfl

/-- C1: when the gateway's complete operation fails, `processMessage` re-raises
the failure, leaves status `error`, and leaves the log equal to the prior log
plus exactly the appended user message — no assistant entry. -/
theorem c1_failure_atomicity (a : AgentState) (g : ModelGateway) (msg : String) (t : Nat)
    (hfail : ∀ m c eng, ∃ e, g.generateResponse m c eng = Except.error e) :
    ∃ e,
      g.generateResponse msg
        (prepareContext (addMessageToHistory { a with status := "active" } "user" msg t))
        (addMessageToHistory { a with status := "active" } "user" msg t).aiEngine =
        Except.error e ∧
      processMessage a g msg t =
        (Except.error e,
          { addMessageToHistory { a with status := "active" } "user" msg t with
              status := "error" }) ∧
      (processMessage a g msg t).2.status = "error" ∧
      (processMessage a g msg t).2.conversationHistory.messages =
        a.conversationHistory.messages ++
          [{ role := "user", content := msg, timestamp := t }] := by
  obtain ⟨e, he⟩ := hfail msg
    (prepareContext (addMessageToHistory { a with status := "active" } "user" msg t))
    (addMessageToHistory { a with status := "active" } "user" msg t).aiEngine
  have hp := processMessage_error_case a g msg t e he
  refine ⟨e, he, hp, ?_, ?_⟩
  · rw [hp]
  · rw [hp]
    rfl

/-- C1 witness: from an empty log, after `processMessage "hi"` fails against an
always-failing gateway, the log holds exactly the one user message and the
status is `error`. -/
theorem c1_witness :
    (processMessage (mkAgent template0 none) failGateway "hi" 0).2.conversationHistory.messages =
      [{ role := "user", content := "hi", timestamp := 0 }] ∧
    (processMessage (mkAgent template0 none) failGateway "hi" 0).2.status = "error" := by
  obtain ⟨e, -, -, hst, hlog⟩ :=
    c1_failure_atomicity (mkAgent template0 none) failGateway "hi" 0
      (fun m c eng => ⟨"provider down", rfl⟩)
  exact ⟨hlog.trans rfl, hst⟩

/-- C5: when the gateway's complete operation succeeds and its summarize
operation always fails, `processMessage` returns the completion text, status
ends `idle`, and the running summary (text and lastUpdated) is unchanged —
the summarization failure is swallowed. -/
theorem c5_summarize_best_effort (a : AgentState) (g : ModelGateway) (msg : String)
    (t : Nat) (r : LLMResponse)
    (hok : g.generateResponse msg
        (prepareContext (addMessageToHistory { a with status := "active" } "user" msg t))
        (addMessageToHistory { a with status := "active" } "user" msg t).aiEngine =
      Except.ok r)
    (hsum : ∀ s eng, ∃ e, g.summarizeText s eng = Except.error e) :
    (processMessage a g msg t).1 = Except.ok r.content ∧
    (processMessage a g msg t).2.status = "idle" ∧
    (processMessage a g msg t).2.experienceSummary.lastSummary =
      a.experienceSummary.lastSummary ∧
    (processMessage a g msg t).2.experienceSummary.lastUpdated =
      a.experienceSummary.lastUpdated := by
  have hp := processMessage_ok_case a g msg t r hok
  have hu := updateExperienceSummary_of_fail
    (addMessageToHistory (addMessageToHistory { a with status := "active" } "user" msg t)
      "assistant" r.content (t + 1)) g (t + 2) hsum
  rw [hp, hu]
  exact ⟨rfl, rfl, rfl, rfl⟩

/-- C5 witness: a session rehydrated at 8 interactions, so that this turn
reaches count 10 and the summarization attempt actually runs and fails;
the turn still returns "ack", ends `idle`, and keeps the summary. -/
theorem c5_witness :
    (processMessage (mkAgent template0 (some record8)) sumFailGateway "hello" 0).1 =
      Except.ok "ack" ∧
    (processMessage (mkAgent template0 (some record8)) sumFailGateway "hello" 0).2.status =
      "idle" ∧
    (processMessage (mkAgent template0 (some record8))
        sumFailGateway "hello" 0).2.experienceSummary.lastSummary =
      "No previous interactions." ∧
    (processMessage (mkAgent template0 (some record8))
        sumFailGateway "hello" 0).2.experienceSummary.lastUpdated = none := by
  have h := c5_summarize_best_effort (mkAgent template0 (some record8)) sumFailGateway
    "hello" 0 { content := "ack" } rfl (fun s eng => ⟨"rate limited", rfl⟩)
  exact ⟨h.1, h.2.1, h.2.2.1.trans rfl, h.2.2.2.trans rfl⟩

/-- C6: a `processMessage` call always ends with status `idle` (normal return)
or `error` (raise), never `active`; and the call's behaviour does not depend
on the prior status value, so `error` is not sticky. -/
theorem c6_terminal_status (a : AgentState) (g : ModelGateway) (msg : String) (t : Nat)
    (s : String) :
    ((processMessage a g msg t).2.status = "idle" ∨
      (processMessage a g msg t).2.status = "error") ∧
    (processMessage a g msg t).2.status ≠ "active" ∧
    processMessage { a with status := s } g msg t = processMessage a g msg t := by
  have hd : (processMessage a g msg t).2.status = "idle" ∨
      (processMessage a g msg t).2.status = "error" := by
    cases hr : g.generateResponse msg
        (prepareContext (addMessageToHistory { a with status := "active" } "user" msg t))
        (addMessageToHistory { a with status := "active" } "user" msg t).aiEngine with
    | error e =>
        right
        rw [processMessage_error_case a g msg t e hr]
    | ok r =>
        left
        rw [processMessage_ok_case a g msg t r hr]
  refine ⟨hd, ?_, rfl⟩
  rcases hd with h | h <;> rw [h] <;> decide

/-- C3 counterexample: from a fresh session with conversation memory and
summarization enabled, 11 stub-answered user messages produce two
`summarizeText` calls after the 10th message and still two after the 11th —
not one, as the claim states: the counter increments per message, so the
trigger already fires at the 5th message (interaction count 10). -/
theorem c3_counterexample :
    (runTurns stubGateway (mkAgent template0 none) (msgs 10) 0).2 = 2 ∧
    (runTurns stubGateway (mkAgent template0 none) (msgs 11) 0).2 = 2 ∧
    (2 : Nat) ≠ 1 := by
  refine ⟨rfl, rfl, by decide⟩

/-- C3 (amended): in the same scenario there is exactly one summarize call
after the 5th message (interaction count 10), exactly two after the 10th
message (20th log entry, count 20), and still exactly two after the 11th. -/
theorem c3_amended :
    (runTurns stubGateway (mkAgent template0 none) (msgs 5) 0).2 = 1 ∧
    (runTurns stubGateway (mkAgent template0 none) (msgs 10) 0).2 = 2 ∧
    (runTurns stubGateway (mkAgent template0 none) (msgs 11) 0).2 = 2 ∧
    (runTurns stubGateway (mkAgent template0 none)
        (msgs 10) 0).1.conversationHistory.messages.length = 20 := by
  refine ⟨rfl, rfl, rfl, rfl⟩

theorem processMessage_count_invariant (a : AgentState) (g : ModelGateway) (m : String)
    (t : Nat)
    (h : a.experienceSummary.interactions = a.conversationHistory.messages.length) :
    (processMessage a g m t).2.experienceSummary.interactions =
      (processMessage a g m t).2.conversationHistory.messages.length := by
  cases hr : g.generateResponse m
      (prepareContext (addMessageToHistory { a with status := "active" } "user" m t))
      (addMessageToHistory { a with status := "active" } "user" m t).aiEngine with
  | error e =>
      rw [processMessage_error_case a g m t e hr]
      simp [addMessageToHistory, h]
  | ok r =>
      rw [processMessage_ok_case a g m t r hr]
      simp [updateExperienceSummary_interactions, updateExperienceSummary_history,
        addMessageToHistory, h]

/-- C7: appending a message increments the interaction counter by exactly one
and the log by exactly one entry; consequently, from a fresh session, after
any sequence of `processMessage` calls (each succeeding or failing at the
completion step), the interaction count equals the log length. -/
theorem c7_interaction_count (template : AgentTemplate)
    (calls : List (ModelGateway × String × Nat)) :
    (∀ (a : AgentState) (role content : String) (t : Nat),
        (addMessageToHistory a role content t).experienceSummary.interactions =
          a.experienceSummary.interactions + 1 ∧
        (addMessageToHistory a role content t).conversationHistory.messages =
          a.conversationHistory.messages ++
            [{ role := role, content := content, timestamp := t }]) ∧
    (runSequence (mkAgent template none) calls).experienceSummary.interactions =
      (runSequence (mkAgent template none) calls).conversationHistory.messages.length := by
  refine ⟨fun a role content t => ⟨rfl, rfl⟩, ?_⟩
  have key : ∀ (cs : List (ModelGateway × String × Nat)) (a : AgentState),
      a.experienceSummary.interactions = a.conversationHistory.messages.length →
      (runSequence a cs).experienceSummary.interactions =
        (runSequence a cs).conversationHistory.messages.length := by
    intro cs
    induction cs with
    | nil => exact fun a h => h
    | cons c rest ih =>
        exact fun a h => ih _ (processMessage_count_invariant a c.1 c.2.1 c.2.2 h)
  exact key calls _ rfl

set_option maxRecDepth 40000 in
/-- C9 counterexample: for a session whose running-summary text is the empty
string, the assembled context's system entry does not contain the placeholder
"No previous interactions" — the code interpolates the summary text as-is
and performs no empty-to-placeholder substitution. -/
theorem c9_counterexample :
    prepareContext (mkAgent template0 (some recordEmptySummary)) =
      [systemPromptFor template0.persona { interactions := 4, lastSummary := "" }] ∧
    ¬ containsStr (systemPromptFor template0.persona { interactions := 4, lastSummary := "" })
        "No previous interactions" := by
  refine ⟨rfl, by decide⟩

/-- C9 (amended): the assembled context is the single system entry followed by
one entry per windowed message in window order, each rendered as
"role: content"; the system entry contains the joined persona traits, the
backstory, the instructions, the interaction count, and the running summary's
text as-is (the placeholder "No previous interactions." is only the default
initial summary text, not a substitution for an empty summary); everything is
a total function of its inputs, so no input fails and none is mutated. -/
theorem c9_context_assembly (a : AgentState) :
    prepareContext a =
      systemPromptFor a.persona a.experienceSummary ::
        (getRelevantConversationHistory a).map renderMessage ∧
    containsStr (systemPromptFor a.persona a.experienceSummary)
      (String.intercalate ", " a.persona.traits) ∧
    containsStr (systemPromptFor a.persona a.experienceSummary) a.persona.backstory ∧
    containsStr (systemPromptFor a.persona a.experienceSummary) a.persona.instructions ∧
    containsStr (systemPromptFor a.persona a.experienceSummary)
      (toString a.experienceSummary.interactions) ∧
    containsStr (systemPromptFor a.persona a.experienceSummary)
      a.experienceSummary.lastSummary ∧
    ∀ m ∈ getRelevantConversationHistory a,
      renderMessage m = m.role ++ ": " ++ m.content := by
  refine ⟨rfl, ?_, ?_, ?_, ?_, ?_, fun m _ => rfl⟩ <;> unfold systemPromptFor
  · exact containsStr_right _ (containsStr_left _ (containsStr_self _))
  · exact containsStr_right _ (containsStr_right _ (containsStr_right _
      (containsStr_left _ (containsStr_self _))))
  · exact containsStr_right _ (containsStr_right _ (containsStr_right _
      (containsStr_right _ (containsStr_right _
        (containsStr_left _ (containsStr_self _))))))
  · exact containsStr_right _ (containsStr_right _ (containsStr_right _
      (containsStr_right _ (containsStr_right _ (containsStr_right _
        (containsStr_right _ (containsStr_left _ (containsStr_self _))))))))
  · exact containsStr_right _ (containsStr_right _ (containsStr_right _
      (containsStr_right _ (containsStr_right _ (containsStr_right _
        (containsStr_right _ (containsStr_right _ (containsStr_right _
          (containsStr_left _ (containsStr_self _))))))))))

end DashboardAgents
